import Mathlib

/-!
Verification of the ALBA pricing dashboard calculation engine
(src/ALBA_Final_Dashboard/calculations.py and the inline engine in
src/ALBA_Final_Dashboard/streamlit_app.py).

Embedding conventions:
* Python floats are modelled as exact rationals (ℚ); every quantitative
  claim is settled over exact arithmetic, which is what the spec's
  "up to floating-point tolerance" denotes at the model level.
* Python ints (unit counts, day counts, year counts) are ℤ or ℕ.
* The sentinel `float("inf")` returned by `required_fee_for_margin` is
  modelled as `none` in an `Option ℚ` result; `some q` is an ordinary
  finite float.  No operation of the engine raises an exception, and the
  embedding is correspondingly total.
-/

namespace Calculations

/-- `HST_RATE = 0.13` from calculations.py line 7. -/
def HST_RATE : ℚ := 13 / 100

/-- `FULL_TIME_DAYS = 5` from calculations.py line 8 — the default
`baseline_days` of `allocated_manager_cost`. -/
def FULL_TIME_DAYS : ℚ := 5

/-- `allocated_manager_cost` (calculations.py lines 30-32).  The Python
default argument `baseline_days = FULL_TIME_DAYS` is made explicit: every
in-repo call site omits it, so callers here pass `FULL_TIME_DAYS`. -/
def allocated_manager_cost (manager_salary_annual manager_days_per_week baseline_days : ℚ) : ℚ :=
  let frac : ℚ :=
    if baseline_days ≤ 0 then 0
    else max 0 (min (manager_days_per_week / baseline_days) 1)
  manager_salary_annual * frac

/-- `annual_expenses_total` (calculations.py lines 34-41): allocated
manager cost (at the default baseline) plus the three flat annual costs. -/
def annual_expenses_total (manager_salary_annual manager_days_per_week
    accounting_fees_annual head_office_time_annual fixed_overhead_annual : ℚ) : ℚ :=
  allocated_manager_cost manager_salary_annual manager_days_per_week FULL_TIME_DAYS
    + accounting_fees_annual
    + head_office_time_annual
    + fixed_overhead_annual

/-- `required_fee_for_margin` (calculations.py lines 43-50).  In Python the
inner guard `1.0 - m != 0` substitutes `float("inf")`, which then propagates
through the final division; both infinite outcomes are `none` here. -/
def required_fee_for_margin (units : ℤ) (expenses_annual target_margin_pct : ℚ) : Option ℚ :=
  let m : ℚ := max 0 (min (target_margin_pct / 100) (95 / 100))
  if units ≤ 0 then none
  else if 1 - m = 0 then none
  else some (expenses_annual / (1 - m) / ((units : ℚ) * 12))

/-- `margin_from_fee` (calculations.py lines 52-57). -/
def margin_from_fee (units : ℤ) (fee_per_unit_month expenses_annual : ℚ) : ℚ :=
  let annual_revenue_subtotal : ℚ := fee_per_unit_month * (units : ℚ) * 12
  if annual_revenue_subtotal = 0 then 0
  else (annual_revenue_subtotal - expenses_annual) / annual_revenue_subtotal * 100

/-- The dict returned by `compute_core` (calculations.py lines 75-87),
one field per key. -/
structure CoreResult where
  monthly_rev_subtotal : ℚ
  monthly_hst : ℚ
  monthly_rev_total : ℚ
  annual_rev_subtotal : ℚ
  annual_hst : ℚ
  annual_rev_total : ℚ
  exp_annual : ℚ
  exp_monthly : ℚ
  monthly_profit : ℚ
  annual_profit : ℚ
  actual_margin_pct : ℚ
  deriving Repr, DecidableEq

/-- `compute_core` (calculations.py lines 59-87), statement by statement. -/
def compute_core (units : ℤ) (fee_per_unit_month expenses_annual : ℚ) : CoreResult :=
  let monthly_rev_subtotal := fee_per_unit_month * (units : ℚ)
  let annual_rev_subtotal := monthly_rev_subtotal * 12
  let monthly_hst := monthly_rev_subtotal * HST_RATE
  let annual_hst := annual_rev_subtotal * HST_RATE
  let monthly_rev_total := monthly_rev_subtotal + monthly_hst
  let annual_rev_total := annual_rev_subtotal + annual_hst
  let exp_annual := expenses_annual
  let exp_monthly := exp_annual / 12
  let monthly_profit := monthly_rev_subtotal - exp_monthly
  let annual_profit := annual_rev_subtotal - exp_annual
  let actual_margin_pct :=
    if annual_rev_subtotal = 0 then 0 else annual_profit / annual_rev_subtotal * 100
  { monthly_rev_subtotal := monthly_rev_subtotal
    monthly_hst := monthly_hst
    monthly_rev_total := monthly_rev_total
    annual_rev_subtotal := annual_rev_subtotal
    annual_hst := annual_hst
    annual_rev_total := annual_rev_total
    exp_annual := exp_annual
    exp_monthly := exp_monthly
    monthly_profit := monthly_profit
    annual_profit := annual_profit
    actual_margin_pct := actual_margin_pct }

/-- One iteration record of the loop in `projection`
(calculations.py lines 97-104): `(fee, annual_rev, expenses_annual, profit)`. -/
def projectionRows (units : ℤ) (growth_pct expenses_annual : ℚ) :
    ℕ → ℚ → List (ℚ × ℚ × ℚ × ℚ)
  | 0, _ => []
  | n + 1, fee =>
      let annual_rev := fee * (units : ℚ) * 12
      (fee, annual_rev, expenses_annual, annual_rev - expenses_annual)
        :: projectionRows units growth_pct expenses_annual n (fee * (1 + growth_pct))

/-- The dict of four year-indexed arrays returned by `projection`
(calculations.py line 105). -/
structure ProjectionSeries where
  fees : List ℚ
  revenues : List ℚ
  expenses : List ℚ
  profits : List ℚ
  deriving Repr, DecidableEq

/-- `projection` (calculations.py lines 89-105).  The Python loop
`for yr in range(1, years + 1)` executes `years` times; each pass appends
to the four lists and then updates `fee ← fee * (1 + growth_pct)`. -/
def projection (units : ℤ) (start_fee_per_unit_month : ℚ) (years : ℕ)
    (growth_pct expenses_annual : ℚ) : ProjectionSeries :=
  let rows := projectionRows units growth_pct expenses_annual years start_fee_per_unit_month
  { fees := rows.map (fun r => r.1)
    revenues := rows.map (fun r => r.2.1)
    expenses := rows.map (fun r => r.2.2.1)
    profits := rows.map (fun r => r.2.2.2) }

end Calculations

namespace StreamlitApp

/-- `required_fee_for_margin` inline in streamlit_app.py (lines 173-191):
checks `units <= 0` first, builds the expense total without clamping the
`days / 5` fraction, then solves exactly as the extracted engine does. -/
def required_fee_for_margin (target_margin_pct : ℚ) (units : ℤ)
    (manager_salary_annual : ℚ) (manager_days_per_week : ℤ)
    (accounting_fees_annual head_office_annual fixed_overhead_annual : ℚ) : Option ℚ :=
  if units ≤ 0 then none
  else
    let manager_alloc := manager_salary_annual * ((manager_days_per_week : ℚ) / 5)
    let a_exp := manager_alloc + accounting_fees_annual + head_office_annual
      + fixed_overhead_annual
    let m : ℚ := max 0 (min (95 / 100) (target_margin_pct / 100))
    if 1 - m = 0 then none
    else some (a_exp / (1 - m) / ((units : ℚ) * 12))

/-- `margin_from_fee` inline in streamlit_app.py (lines 193-208): an extra
early `units <= 0 → 0.0` guard, then the same margin formula over the
inline (unclamped) expense total. -/
def margin_from_fee (fee_per_unit_month : ℚ) (units : ℤ)
    (manager_salary_annual : ℚ) (manager_days_per_week : ℤ)
    (accounting_fees_annual head_office_annual fixed_overhead_annual : ℚ) : ℚ :=
  if units ≤ 0 then 0
  else
    let a_rev_sub := fee_per_unit_month * (units : ℚ) * 12
    let manager_alloc := manager_salary_annual * ((manager_days_per_week : ℚ) / 5)
    let a_exp := manager_alloc + accounting_fees_annual + head_office_annual
      + fixed_overhead_annual
    let a_profit := a_rev_sub - a_exp
    if a_rev_sub = 0 then 0 else a_profit / a_rev_sub * 100

end StreamlitApp

open Calculations

/-- C7: in `compute_core`, each HST amount is its own subtotal times the
fixed 13% rate (the annual tax is computed from the annual subtotal, not as
monthly tax × 12), and each revenue total is its subtotal plus its tax. -/
theorem compute_core_hst_fixed_rate (units : ℤ) (fee expenses : ℚ) :
    (compute_core units fee expenses).monthly_hst
        = (compute_core units fee expenses).monthly_rev_subtotal * (13 / 100)
    ∧ (compute_core units fee expenses).annual_hst
        = (compute_core units fee expenses).annual_rev_subtotal * (13 / 100)
    ∧ (compute_core units fee expenses).monthly_rev_total
        = (compute_core units fee expenses).monthly_rev_subtotal
          + (compute_core units fee expenses).monthly_hst
    ∧ (compute_core units fee expenses).annual_rev_total
        = (compute_core units fee expenses).annual_rev_subtotal
          + (compute_core units fee expenses).annual_hst := by
  refine ⟨rfl, rfl, rfl, rfl⟩

/-- C10: in `compute_core`, over exact arithmetic every annual figure is
twelve times its monthly counterpart. -/
theorem compute_core_annual_is_twelve_monthly (units : ℤ) (fee expenses : ℚ) :
    (compute_core units fee expenses).annual_rev_subtotal
        = 12 * (compute_core units fee expenses).monthly_rev_subtotal
    ∧ (compute_core units fee expenses).annual_hst
        = 12 * (compute_core units fee expenses).monthly_hst
    ∧ (compute_core units fee expenses).annual_rev_total
        = 12 * (compute_core units fee expenses).monthly_rev_total
    ∧ (compute_core units fee expenses).exp_annual
        = 12 * (compute_core units fee expenses).exp_monthly
    ∧ (compute_core units fee expenses).annual_profit
        = 12 * (compute_core units fee expenses).monthly_profit := by
  simp only [compute_core, HST_RATE]
  refine ⟨by ring, by ring, by ring, by ring, by ring⟩

/-- C6: in `compute_core`, profit at both granularities is revenue subtotal
minus expenses (annual expenses, resp. annual expenses / 12), the margin is
0 when the annual revenue subtotal is 0 and otherwise
100 × annual profit / annual revenue subtotal, and no HST term occurs in any
of these equations — tax never enters profit or margin. -/
theorem compute_core_profit_margin_pretax (units : ℤ) (fee expenses : ℚ) :
    (compute_core units fee expenses).annual_profit
        = (compute_core units fee expenses).annual_rev_subtotal - expenses
    ∧ (compute_core units fee expenses).monthly_profit
        = (compute_core units fee expenses).monthly_rev_subtotal - expenses / 12
    ∧ (compute_core units fee expenses).actual_margin_pct
        = if (compute_core units fee expenses).annual_rev_subtotal = 0 then 0
          else 100 * (compute_core units fee expenses).annual_profit
            / (compute_core units fee expenses).annual_rev_subtotal := by
  refine ⟨rfl, rfl, ?_⟩
  simp only [compute_core]
  split
  · rfl
  · ring

/-- C3: undefined-result conditions return sentinels and never raise:
`required_fee_for_margin` returns the infinite-fee sentinel (`none`, the
model of `float("inf")`) whenever `units ≤ 0`, for all other inputs, and
`margin_from_fee` returns 0 whenever the annual revenue `fee × units × 12`
is zero.  Both embedded functions are total, matching the raise-free code. -/
theorem sentinel_values_for_undefined_results :
    (∀ (units : ℤ) (expenses target : ℚ), units ≤ 0 →
      required_fee_for_margin units expenses target = none)
    ∧ (∀ (units : ℤ) (fee expenses : ℚ), fee * (units : ℚ) * 12 = 0 →
      margin_from_fee units fee expenses = 0) := by
  constructor
  · intro units expenses target h
    simp [required_fee_for_margin, h]
  · intro units fee expenses h
    simp [margin_from_fee, h]

/-- Witness for C3 at `units = 0` (and `units = -3`), plus the zero-revenue
margin case at `fee = 0`. -/
theorem sentinel_values_for_undefined_results_witness :
    required_fee_for_margin 0 150000 20 = none
    ∧ required_fee_for_margin (-3) 150000 20 = none
    ∧ margin_from_fee 5 0 150000 = 0 :=
  ⟨sentinel_values_for_undefined_results.1 0 150000 20 (by decide),
   sentinel_values_for_undefined_results.1 (-3) 150000 20 (by decide),
   sentinel_values_for_undefined_results.2 5 0 150000 (by norm_num)⟩

/-- C2 counterexample: with a negative accounting fee the expense total is
negative — the three flat costs are added unclamped (calculations.py lines
36-41), so the claim's "never negative because each addend is clamped
non-negative" fails as stated. -/
theorem annual_expenses_total_negative_example :
    annual_expenses_total 0 0 (-1) 0 0 = -1 ∧ annual_expenses_total 0 0 (-1) 0 0 < 0 := by
  constructor
  · simp [annual_expenses_total, allocated_manager_cost, FULL_TIME_DAYS]
  · simp [annual_expenses_total, allocated_manager_cost, FULL_TIME_DAYS]

/-- C2 (amended): `annual_expenses_total` always returns the sum of the
prorated manager cost and the three flat annual costs; only the manager
allocation fraction is clamped, so the result is non-negative whenever the
salary and the three flat costs are non-negative (the aggregator does not
re-validate negative flat costs). -/
theorem annual_expenses_total_sum_and_nonneg
    (salary days accounting head_office overhead : ℚ)
    (hs : 0 ≤ salary) (ha : 0 ≤ accounting) (hh : 0 ≤ head_office) (ho : 0 ≤ overhead) :
    annual_expenses_total salary days accounting head_office overhead
        = allocated_manager_cost salary days FULL_TIME_DAYS
          + accounting + head_office + overhead
    ∧ 0 ≤ annual_expenses_total salary days accounting head_office overhead := by
  refine ⟨rfl, ?_⟩
  have halloc : 0 ≤ allocated_manager_cost salary days FULL_TIME_DAYS := by
    unfold allocated_manager_cost
    split
    · simp
    · exact mul_nonneg hs (le_max_left 0 _)
  unfold annual_expenses_total
  positivity

/-- Witness for C2 (amended) at the spec's concrete scenario:
salary 90000, 5 days, accounting 12000, head office 18000, overhead 30000
gives exactly 150000 and is non-negative. -/
theorem annual_expenses_total_sum_and_nonneg_witness :
    annual_expenses_total 90000 5 12000 18000 30000
        = allocated_manager_cost 90000 5 FULL_TIME_DAYS + 12000 + 18000 + 30000
    ∧ 0 ≤ annual_expenses_total 90000 5 12000 18000 30000 :=
  annual_expenses_total_sum_and_nonneg 90000 5 12000 18000 30000
    (by norm_num) (by norm_num) (by norm_num) (by norm_num)

/-- The clamped margin fraction of the solver is at most 0.95, so the
`1 - m = 0` guard never fires. -/
theorem clamped_margin_lt_one (target : ℚ) :
    max 0 (min (target / 100) (95 / 100)) < 1 := by
  have h1 : min (target / 100) (95 / 100) ≤ 95 / 100 := min_le_right _ _
  have : max 0 (min (target / 100) (95 / 100)) ≤ 95 / 100 :=
    max_le (by norm_num) h1
  linarith

/-- Helper: the closed form of the solver for positive `units` (shared by
the C1 and C4 developments). -/
theorem required_fee_eq_of_pos (units : ℤ) (expenses target : ℚ)
    (hu : 0 < units) :
    required_fee_for_margin units expenses target
      = some (expenses / (1 - max 0 (min (target / 100) (95 / 100)))
          / ((units : ℚ) * 12)) := by
  have hm := clamped_margin_lt_one target
  have hne : 1 - max 0 (min (target / 100) (95 / 100)) ≠ 0 := by linarith
  simp [required_fee_for_margin, not_le.mpr hu, hne]

/-- C4: for positive `units`, `required_fee_for_margin` returns exactly
`(expenses / (1 − m)) / (units × 12)` with
`m = clamp(target / 100, 0, 0.95)`. -/
theorem required_fee_for_margin_formula (units : ℤ) (expenses target : ℚ)
    (hu : 0 < units) :
    required_fee_for_margin units expenses target
      = some (expenses / (1 - max 0 (min (target / 100) (95 / 100)))
          / ((units : ℚ) * 12)) :=
  required_fee_eq_of_pos units expenses target hu

/-- Witness for C4 at the spec's concrete scenario: 100 units, 150000
annual expenses and a 20% target margin give a fee of 156.25. -/
theorem required_fee_for_margin_formula_witness :
    required_fee_for_margin 100 150000 20
        = some (150000 / (1 - max 0 (min (20 / 100) (95 / 100))) / ((100 : ℚ) * 12))
    ∧ required_fee_for_margin 100 150000 20 = some (625 / 4) := by
  constructor
  · exact required_fee_for_margin_formula 100 150000 20 (by decide)
  · rw [required_fee_for_margin_formula 100 150000 20 (by decide)]
    norm_num

/-- C8: with non-negative salary and the default 5-day baseline,
`allocated_manager_cost` is monotone non-decreasing in the days-per-week
argument, always lies in `[0, salary]`, is 0 at 0 days and whenever the
baseline is non-positive, and equals the full salary at 5 days. -/
theorem allocated_manager_cost_properties (salary : ℚ) (hs : 0 ≤ salary) :
    (∀ d1 d2 : ℚ, d1 ≤ d2 →
      allocated_manager_cost salary d1 FULL_TIME_DAYS
        ≤ allocated_manager_cost salary d2 FULL_TIME_DAYS)
    ∧ (∀ d : ℚ, 0 ≤ allocated_manager_cost salary d FULL_TIME_DAYS
        ∧ allocated_manager_cost salary d FULL_TIME_DAYS ≤ salary)
    ∧ allocated_manager_cost salary 0 FULL_TIME_DAYS = 0
    ∧ (∀ baseline : ℚ, baseline ≤ 0 →
        ∀ d : ℚ, allocated_manager_cost salary d baseline = 0)
    ∧ allocated_manager_cost salary 5 FULL_TIME_DAYS = salary := by
  have hbase : ¬ (FULL_TIME_DAYS : ℚ) ≤ 0 := by norm_num [FULL_TIME_DAYS]
  refine ⟨?_, ?_, ?_, ?_, ?_⟩
  · intro d1 d2 hle
    simp only [allocated_manager_cost, if_neg hbase]
    have hdiv : d1 / FULL_TIME_DAYS ≤ d2 / FULL_TIME_DAYS := by
      apply div_le_div_of_nonneg_right hle
      norm_num [FULL_TIME_DAYS]
    exact mul_le_mul_of_nonneg_left
      (max_le_max le_rfl (min_le_min hdiv le_rfl)) hs
  · intro d
    simp only [allocated_manager_cost, if_neg hbase]
    constructor
    · exact mul_nonneg hs (le_max_left 0 _)
    · have hfrac : max 0 (min (d / FULL_TIME_DAYS) 1) ≤ 1 :=
        max_le (by norm_num) (min_le_right _ _)
      calc salary * max 0 (min (d / FULL_TIME_DAYS) 1)
          ≤ salary * 1 := mul_le_mul_of_nonneg_left hfrac hs
        _ = salary := mul_one salary
  · simp [allocated_manager_cost, if_neg hbase, FULL_TIME_DAYS]
  · intro baseline hb d
    simp [allocated_manager_cost, if_pos hb]
  · norm_num [allocated_manager_cost, if_neg hbase, FULL_TIME_DAYS]

/-- Witness for C8 at salary 90000: monotone between 2 and 3 days, bounded
at 2 days, 0 at 0 days, 0 at baseline 0, full salary at 5 days. -/
theorem allocated_manager_cost_properties_witness :
    (allocated_manager_cost 90000 2 FULL_TIME_DAYS
        ≤ allocated_manager_cost 90000 3 FULL_TIME_DAYS)
    ∧ (0 ≤ allocated_manager_cost 90000 2 FULL_TIME_DAYS
        ∧ allocated_manager_cost 90000 2 FULL_TIME_DAYS ≤ 90000)
    ∧ allocated_manager_cost 90000 0 FULL_TIME_DAYS = 0
    ∧ allocated_manager_cost 90000 2 0 = 0
    ∧ allocated_manager_cost 90000 5 FULL_TIME_DAYS = 90000 := by
  have h := allocated_manager_cost_properties 90000 (by norm_num)
  exact ⟨h.1 2 3 (by norm_num), h.2.1 2, h.2.2.1,
    h.2.2.2.1 0 (le_refl 0) 2, h.2.2.2.2⟩

/-- C1 counterexample: at `units = 1`, `expensesAnnual = 0`,
`targetMarginPct = 20` — inputs allowed by the claim (`expenses ≥ 0`) —
the solver returns fee 0, and feeding it back gives margin 0, not 20
(the zero-revenue sentinel of `margin_from_fee` fires), a discrepancy far
beyond any floating-point tolerance. -/
theorem round_trip_fails_at_zero_expenses :
    (0 : ℤ) < 1 ∧ (0 : ℚ) ≤ 0 ∧ (0 : ℚ) ≤ 20 ∧ (20 : ℚ) ≤ 95
    ∧ required_fee_for_margin 1 0 20 = some 0
    ∧ margin_from_fee 1 0 0 = 0
    ∧ (0 : ℚ) ≠ 20 := by
  refine ⟨by decide, le_refl 0, by norm_num, by norm_num, ?_, ?_, by norm_num⟩
  · rw [required_fee_eq_of_pos 1 0 20 (by decide)]
    norm_num
  · simp [margin_from_fee]

/-- C1 (amended): for `units > 0`, `expenses > 0` (strictly — at zero
expenses the zero-revenue sentinel returns 0 instead of the target) and
target margin in `[0, 95]`, the fee computed by the solver, fed back
through `margin_from_fee`, reproduces the target margin exactly over
exact arithmetic. -/
theorem margin_from_required_fee_round_trip (units : ℤ) (expenses target : ℚ)
    (hu : 0 < units) (hE : 0 < expenses) (ht0 : 0 ≤ target) (ht95 : target ≤ 95) :
    ∀ fee : ℚ, required_fee_for_margin units expenses target = some fee →
      margin_from_fee units fee expenses = target := by
  intro fee hfee
  rw [required_fee_eq_of_pos units expenses target hu] at hfee
  have hm : max 0 (min (target / 100) (95 / 100)) = target / 100 := by
    rw [min_eq_left (by linarith), max_eq_right (by linarith)]
  rw [hm] at hfee
  have hfee' : fee = expenses / (1 - target / 100) / ((units : ℚ) * 12) :=
    (Option.some.inj hfee).symm
  subst hfee'
  have hu' : ((units : ℚ)) ≠ 0 := by
    exact_mod_cast hu.ne'
  have h1m : (0 : ℚ) < 1 - target / 100 := by linarith
  simp only [margin_from_fee]
  have h12 : ((units : ℚ) * 12) ≠ 0 := by
    exact mul_ne_zero hu' (by norm_num)
  have hrev : expenses / (1 - target / 100) / ((units : ℚ) * 12) * (units : ℚ) * 12
      = expenses / (1 - target / 100) := by
    rw [mul_assoc]
    exact div_mul_cancel₀ _ h12
  rw [hrev]
  have hpos : (0 : ℚ) < expenses / (1 - target / 100) := div_pos hE h1m
  rw [if_neg hpos.ne']
  rw [div_mul_eq_mul_div, div_eq_iff hpos.ne']
  have h100 : (100 : ℚ) - target ≠ 0 := by linarith
  field_simp [h100]
  ring

/-- Witness for C1 (amended) at the spec's concrete scenario: 100 units,
150000 expenses, 20% target — the solver's fee 156.25 maps back to 20%. -/
theorem margin_from_required_fee_round_trip_witness :
    margin_from_fee 100 (625 / 4) 150000 = 20 :=
  margin_from_required_fee_round_trip 100 150000 20 (by decide) (by norm_num)
    (by norm_num) (by norm_num) (625 / 4)
    (by
      rw [required_fee_eq_of_pos 100 150000 20 (by decide),
        min_eq_left (by norm_num), max_eq_right (by norm_num)]
      norm_num)

/-- Each call of `projection`'s loop body appends one element, so the row
list has exactly `years` entries. -/
theorem projectionRows_length (units : ℤ) (g E : ℚ) :
    ∀ (n : ℕ) (fee : ℚ), (projectionRows units g E n fee).length = n := by
  intro n
  induction n with
  | zero => intro fee; rfl
  | succ k ih => intro fee; simp [projectionRows, ih]

/-- Closed form of the loop of `projection`: the row for 0-based index `i`
carries fee `fee₀ × (1 + g)^i`, revenue `fee × units × 12`, the flat
expenses, and their difference. -/
theorem projectionRows_get (units : ℤ) (g E : ℚ) :
    ∀ (n i : ℕ) (fee : ℚ), i < n →
      (projectionRows units g E n fee)[i]?
        = some (fee * (1 + g) ^ i, fee * (1 + g) ^ i * (units : ℚ) * 12, E,
            fee * (1 + g) ^ i * (units : ℚ) * 12 - E) := by
  intro n
  induction n with
  | zero => intro i fee h; exact absurd h (Nat.not_lt_zero i)
  | succ k ih =>
    intro i fee h
    cases i with
    | zero => simp [projectionRows]
    | succ j =>
      have hj : j < k := Nat.lt_of_succ_lt_succ h
      have hstep : fee * (1 + g) * (1 + g) ^ j = fee * (1 + g) ^ (j + 1) := by
        ring
      simp only [projectionRows, List.getElem?_cons_succ]
      rw [ih j (fee * (1 + g)) hj, hstep]

/-- C5: for `years ≥ 1`, `projection` returns four sequences each of length
exactly `years`, and for every 1-based year index `i`, the year-`i` fee is
`start × (1 + growth)^(i−1)` (growth compounds multiplicatively on the fee
only), revenue is that fee × units × 12, expenses are held flat at
`expensesAnnual`, and profit is revenue − expensesAnnual. -/
theorem projection_series_spec (units : ℤ) (start g E : ℚ) (years : ℕ)
    (_hy : 1 ≤ years) :
    ((projection units start years g E).fees.length = years
      ∧ (projection units start years g E).revenues.length = years
      ∧ (projection units start years g E).expenses.length = years
      ∧ (projection units start years g E).profits.length = years)
    ∧ (∀ i : ℕ, 1 ≤ i → i ≤ years →
        (projection units start years g E).fees[i - 1]?
            = some (start * (1 + g) ^ (i - 1))
        ∧ (projection units start years g E).revenues[i - 1]?
            = some (start * (1 + g) ^ (i - 1) * (units : ℚ) * 12)
        ∧ (projection units start years g E).expenses[i - 1]? = some E
        ∧ (projection units start years g E).profits[i - 1]?
            = some (start * (1 + g) ^ (i - 1) * (units : ℚ) * 12 - E)) := by
  constructor
  · refine ⟨?_, ?_, ?_, ?_⟩ <;>
      simp [projection, projectionRows_length]
  · intro i h1 hiy
    have hlt : i - 1 < years := by omega
    have hrow := projectionRows_get units g E years (i - 1) start hlt
    refine ⟨?_, ?_, ?_, ?_⟩ <;>
      · simp only [projection]
        rw [List.getElem?_map, hrow]
        rfl

/-- Witness for C5 at 100 units, start fee 75, 2 years, 3% growth, 150000
expenses: two entries, and the year-2 fee is 75 × 1.03. -/
theorem projection_series_spec_witness :
    (projection 100 75 2 (3 / 100) 150000).fees.length = 2
    ∧ (projection 100 75 2 (3 / 100) 150000).fees[2 - 1]?
        = some (75 * (1 + 3 / 100) ^ (2 - 1)) :=
  ⟨(projection_series_spec 100 75 (3 / 100) 150000 2 (by norm_num)).1.1,
    ((projection_series_spec 100 75 (3 / 100) 150000 2 (by norm_num)).2 2
      (by norm_num) (by norm_num)).1⟩

/-- C9: on validated inputs (non-negative integer units, integer days per
week in [1, 5], non-negative salary, flat costs and fee, target margin in
[0, 95]) the engine inlined in streamlit_app.py computes exactly what the
extracted engine in calculations.py computes on the corresponding expense
total. -/
theorem inline_engine_matches_extracted (units d : ℤ)
    (target fee salary acc head_office overhead : ℚ)
    (hu : 0 ≤ units) (hd1 : 1 ≤ d) (hd5 : d ≤ 5)
    (_hs : 0 ≤ salary) (_hacc : 0 ≤ acc) (_hho : 0 ≤ head_office)
    (_hfo : 0 ≤ overhead) (_hfee : 0 ≤ fee) (_ht0 : 0 ≤ target)
    (_ht95 : target ≤ 95) :
    StreamlitApp.required_fee_for_margin target units salary d acc head_office overhead
        = Calculations.required_fee_for_margin units
            (annual_expenses_total salary (d : ℚ) acc head_office overhead) target
    ∧ StreamlitApp.margin_from_fee fee units salary d acc head_office overhead
        = Calculations.margin_from_fee units fee
            (annual_expenses_total salary (d : ℚ) acc head_office overhead) := by
  have hd1' : (1 : ℚ) ≤ (d : ℚ) := by exact_mod_cast hd1
  have hd5' : (d : ℚ) ≤ 5 := by exact_mod_cast hd5
  have hfrac : max 0 (min ((d : ℚ) / 5) 1) = (d : ℚ) / 5 := by
    rw [min_eq_left (by linarith), max_eq_right (by linarith)]
  have hexp : annual_expenses_total salary (d : ℚ) acc head_office overhead
      = salary * ((d : ℚ) / 5) + acc + head_office + overhead := by
    simp only [annual_expenses_total, allocated_manager_cost, FULL_TIME_DAYS]
    rw [if_neg (by norm_num), hfrac]
  constructor
  · by_cases hcase : units ≤ 0
    · simp [StreamlitApp.required_fee_for_margin,
        Calculations.required_fee_for_margin, hcase]
    · simp only [StreamlitApp.required_fee_for_margin,
        Calculations.required_fee_for_margin, if_neg hcase, hexp,
        min_comm ((95 : ℚ) / 100) (target / 100)]
  · by_cases hcase : units ≤ 0
    · have hz : units = 0 := le_antisymm hcase hu
      subst hz
      simp [StreamlitApp.margin_from_fee, Calculations.margin_from_fee]
    · simp only [StreamlitApp.margin_from_fee,
        Calculations.margin_from_fee, if_neg hcase, hexp]

/-- Witness for C9 at 100 units, 2 days/week, salary 90000, accounting
12000, head office 18000, overhead 30000, fee 75, target 20%. -/
theorem inline_engine_matches_extracted_witness :
    StreamlitApp.required_fee_for_margin 20 100 90000 2 12000 18000 30000
        = Calculations.required_fee_for_margin 100
            (annual_expenses_total 90000 ((2 : ℤ) : ℚ) 12000 18000 30000) 20
    ∧ StreamlitApp.margin_from_fee 75 100 90000 2 12000 18000 30000
        = Calculations.margin_from_fee 100 75
            (annual_expenses_total 90000 ((2 : ℤ) : ℚ) 12000 18000 30000) :=
  inline_engine_matches_extracted 100 2 20 75 90000 12000 18000 30000
    (by decide) (by decide) (by decide) (by norm_num) (by norm_num)
    (by norm_num) (by norm_num) (by norm_num) (by norm_num) (by norm_num)
